import Mathlib

/-!
Shallow embedding of the RAPTOR LLM dispatch layer
(`src/packages/llm_analysis/llm/client.py`, `config.py`, `providers.py`).

Modelling conventions:
* Python `float` is embedded as `ℚ` (the constants involved — 0.1, 2.0,
  5.0, 10.0 — behave identically; no claim depends on float rounding).
* Python exceptions are embedded as `Except String` / explicit outcome
  constructors; the raised message text is carried as a `String`.
* The SHA-256 cache key (`hashlib.sha256(content).hexdigest()`) is
  abstracted as the (injective) preimage string `model:system:prompt`
  itself; claims treat the hash as an opaque content address.
* Log lines sent to the application logger are collected, in emission
  order, in a `logs : List String` trace field.  `print(...)` calls go to
  stdout, not the diagnostic log stream, and are not modelled.  Numeric
  formatting (`:.2f`, `str(float)`) is abstracted by `q2s`.
* The LiteLLM/instructor network layer is opaque: an adapter function
  `ModelConfig → Except String LLMResponse` models one blocking call.
-/

/-- `needle.toList` is an infix of `haystack.toList`; model of Python's
`needle in haystack` substring test. -/
def strContains (haystack needle : String) : Bool :=
  haystack.toList.tails.any (fun t => needle.toList.isPrefixOf t)

/-- Characters of the regex class `[a-zA-Z0-9-_]` used by the API-key
patterns in `_sanitize_log_message`. -/
def isKeyChar (c : Char) : Bool :=
  c.isAlphanum || c == '-' || c == '_'

/-- One pass of `re.sub(p₁p₂ ++ "-[a-zA-Z0-9-_]\x7b20,\x7d", "[REDACTED-API-KEY]", ·)`:
leftmost, non-overlapping, greedy replacement of the two-letter vendor
prefix followed by `-` and at least 20 key characters.  The recursion is
fuelled (the list only ever shrinks, so any fuel at least the list
length is enough) to keep it structural and kernel-reducible. -/
def redactGo (p₁ p₂ : Char) : Nat → List Char → List Char
  | 0, cs => cs
  | _fuel + 1, [] => []
  | fuel + 1, c₁ :: c₂ :: '-' :: rest =>
    if c₁ = p₁ ∧ c₂ = p₂ ∧ 20 ≤ (rest.takeWhile isKeyChar).length then
      "[REDACTED-API-KEY]".toList ++ redactGo p₁ p₂ fuel (rest.dropWhile isKeyChar)
    else
      c₁ :: redactGo p₁ p₂ fuel (c₂ :: '-' :: rest)
  | fuel + 1, c :: rest => c :: redactGo p₁ p₂ fuel rest

def redactPass (p₁ p₂ : Char) (cs : List Char) : List Char :=
  redactGo p₁ p₂ cs.length cs

/-- `client._sanitize_log_message`: redact `sk-…` then `pk-…` API-key
patterns with the fixed placeholder. -/
def _sanitize_log_message (msg : String) : String :=
  ⟨redactPass 'p' 'k' (redactPass 's' 'k' msg.toList)⟩

/-- A string contains a recognizable secret-token pattern verbatim:
some suffix starts with `sk-` or `pk-` followed by at least 20
characters of the key class. -/
def containsSecret (s : String) : Bool :=
  s.toList.tails.any fun cs =>
    match cs with
    | 's' :: 'k' :: '-' :: rest => 20 ≤ (rest.takeWhile isKeyChar).length
    | 'p' :: 'k' :: '-' :: rest => 20 ≤ (rest.takeWhile isKeyChar).length
    | _ => false

/-- Python `s.lower()` (ASCII), over the character list so that it
reduces in the kernel. -/
def lowerStr (s : String) : String := ⟨s.toList.map Char.toLower⟩

/-- Python `s.strip()`: whitespace removed from both ends. -/
def pyStrip (s : String) : String :=
  ⟨((s.toList.dropWhile Char.isWhitespace).reverse.dropWhile Char.isWhitespace).reverse⟩

/-- `client._is_quota_error`, string-detection branch.  The type-based
branch tests `isinstance(error, litellm.RateLimitError)` on the external
exception object; errors are embedded as message strings, so only the
string branch is represented. -/
def _is_quota_error (e : String) : Bool :=
  let s := lowerStr e
  strContains s "429" ||
  strContains s "quota exceeded" ||
  (strContains s "quota" && strContains s "exceeded") ||
  strContains s "rate limit" ||
  strContains s "generate_content_free_tier"

/-- ASCII model of Python `str.title()`: first letter of each run of
letters uppercased, the rest lowercased. -/
def pyTitleGo : Bool → List Char → List Char
  | _, [] => []
  | prevAlpha, c :: rest =>
    if c.isAlpha then
      (if prevAlpha then c.toLower else c.toUpper) :: pyTitleGo true rest
    else
      c :: pyTitleGo false rest

def pyTitle (s : String) : String := ⟨pyTitleGo false s.toList⟩

/-- `client._get_quota_guidance`. -/
def _get_quota_guidance (_model provider : String) : String :=
  let p := lowerStr provider
  if p = "gemini" || p = "google" then "\n→ Google Gemini quota/rate limit exceeded"
  else if p = "openai" then "\n→ OpenAI rate limit exceeded"
  else if p = "anthropic" then "\n→ Anthropic rate limit exceeded"
  else if p = "ollama" then "\n→ Ollama server limit exceeded"
  else "\n→ " ++ pyTitle provider ++ " rate limit exceeded"

/-- Abstract rendering of a rational into log text (stands for Python's
`:.2f` / `str(float)` formatting; no claim depends on the digits). -/
def q2s (q : ℚ) : String :=
  toString q.num ++ "/" ++ toString q.den

/-- `config.ModelConfig` dataclass (all fields, source defaults).
Numeric generation parameters keep their Python types: `Int` for the
integer fields, `ℚ` for the float fields. -/
structure ModelConfig where
  provider : String
  model_name : String
  api_key : Option String := none
  api_base : Option String := none
  max_tokens : Int := 4096
  temperature : ℚ := 7/10
  timeout : Int := 120
  cost_per_1k_tokens : ℚ := 0
  enabled : Bool := true
deriving Repr, DecidableEq

/-- The dataclass-generated constructor of `ModelConfig`.  The source
defines no `__post_init__` and no validator, so construction never
raises; the `Except` codomain records that a configuration error *could*
be signalled here but never is. -/
def mkModelConfig (provider model_name : String) (api_key api_base : Option String)
    (max_tokens : Int) (temperature : ℚ) (timeout : Int)
    (cost_per_1k_tokens : ℚ) (enabled : Bool) : Except String ModelConfig :=
  .ok {
    provider := provider
    model_name := model_name
    api_key := api_key
    api_base := api_base
    max_tokens := max_tokens
    temperature := temperature
    timeout := timeout
    cost_per_1k_tokens := cost_per_1k_tokens
    enabled := enabled
  }

/-- `config.LLMConfig` dataclass: dispatch policy fields.  The
default-factory fields (`primary_model`, `fallback_models`,
`specialized_models`) read the environment and the LiteLLM YAML config,
so they are parameters here rather than defaults. -/
structure LLMConfig where
  primary_model : ModelConfig
  fallback_models : List ModelConfig
  specialized_models : List (String × ModelConfig) := []
  enable_fallback : Bool := true
  max_retries : Nat := 3
  retry_delay : ℚ := 2
  retry_delay_remote : ℚ := 5
  enable_caching : Bool := true
  enable_cost_tracking : Bool := true
  max_cost_per_scan : ℚ := 10
deriving Repr, DecidableEq

/-- The dataclass-generated constructor of `LLMConfig`: like
`mkModelConfig`, no validation is performed. -/
def mkLLMConfig (primary : ModelConfig) (fallbacks : List ModelConfig)
    (specialized : List (String × ModelConfig)) (enable_fallback : Bool)
    (max_retries : Nat) (retry_delay retry_delay_remote : ℚ)
    (enable_caching enable_cost_tracking : Bool)
    (max_cost_per_scan : ℚ) : Except String LLMConfig :=
  .ok {
    primary_model := primary
    fallback_models := fallbacks
    specialized_models := specialized
    enable_fallback := enable_fallback
    max_retries := max_retries
    retry_delay := retry_delay
    retry_delay_remote := retry_delay_remote
    enable_caching := enable_caching
    enable_cost_tracking := enable_cost_tracking
    max_cost_per_scan := max_cost_per_scan
  }

/-- `LLMConfig.get_model_for_task`. -/
def LLMConfig.get_model_for_task (cfg : LLMConfig) (task_type : String) : ModelConfig :=
  match cfg.specialized_models.find? (fun p => p.1 == task_type) with
  | some p => if p.2.enabled then p.2 else cfg.primary_model
  | none => cfg.primary_model

/-- `LLMConfig.get_retry_delay`: remote delay iff `api_base` is truthy
and names neither `localhost` nor `127.0.0.1`. -/
def LLMConfig.get_retry_delay (cfg : LLMConfig) (api_base : Option String) : ℚ :=
  match api_base with
  | some b =>
    if !b.isEmpty && !strContains b "localhost" && !strContains b "127.0.0.1" then
      cfg.retry_delay_remote
    else
      cfg.retry_delay
  | none => cfg.retry_delay

/-- Tier of a descriptor: `provider.lower() == "ollama"` is local,
everything else remote (cloud). -/
def isLocal (m : ModelConfig) : Bool :=
  lowerStr m.provider == "ollama"

/-! ## Schema compiler (`providers._dict_schema_to_pydantic`) -/

/-- A Python value as it may appear in a schema declaration (`default`
values, error-message rendering). -/
inductive PyVal
  | null
  | bool (b : Bool)
  | int (n : Int)
  | num (q : ℚ)
  | str (s : String)
deriving Repr, DecidableEq

/-- A property-spec dict as read by `.get("type")`, `.get("description")`,
`.get("default", ...)`; `none` models an absent key (the `...` sentinel
for `default`). -/
structure PropSpec where
  type : Option String := none
  description : Option String := none
  default : Option PyVal := none
deriving Repr, DecidableEq

/-- The value attached to a field name in the simple shorthand format. -/
inductive FieldDesc
  | str (s : String)
  | prop (p : PropSpec)
  | other (reprText : String)
deriving Repr, DecidableEq

/-- A schema declaration, after the `isclass`/`issubclass(BaseModel)`
test (a Pydantic class is returned unchanged and is not modelled):
either not a dict at all, a dict without a `properties` key (shorthand),
or a dict with `properties` and an optional `required` list. -/
inductive SchemaDecl
  | notDict (typeName : String)
  | simple (fields : List (String × FieldDesc))
  | full (properties : List (String × PropSpec)) (required : Option (List String))
deriving Repr, DecidableEq

/-- One canonical field spec: the outcome of the compiler for one field.
`type` is the JSON-schema keyword recorded in `properties` (the pydantic
stage maps unknown keywords to `str`; that mapping is not re-recorded
here).  `nullable` records the `Optional[...]`-with-`None`-default wrap
applied to a non-required field lacking an explicit default. -/
structure FieldSpec where
  name : String
  type : String
  required : Bool
  description : Option String := none
  default : Option PyVal := none
  nullable : Bool := false
deriving Repr, DecidableEq

/-- Python `s.split()`: split on whitespace runs, no empty tokens;
computed over the character list so that it reduces in the kernel. -/
def splitWsAux : List Char → List Char → List String
  | [], acc => if acc.isEmpty then [] else [⟨acc.reverse⟩]
  | c :: rest, acc =>
    if c.isWhitespace then
      if acc.isEmpty then splitWsAux rest []
      else (⟨acc.reverse⟩ : String) :: splitWsAux rest []
    else
      splitWsAux rest (c :: acc)

def pySplitWs (s : String) : List String :=
  splitWsAux s.toList []

/-- First occurrence split: `s.split(sep, 1)[1]` when `sep` occurs in
`s`, else `none`. -/
def splitOnceAux (sep : List Char) : List Char → Option (List Char)
  | [] => none
  | c :: rest =>
    if sep.isPrefixOf (c :: rest) then some ((c :: rest).drop sep.length)
    else splitOnceAux sep rest

def splitOnce (sep s : String) : Option String :=
  (splitOnceAux sep.toList s.toList).map fun l => ⟨l⟩

/-- `field_desc[field_desc.find("("):]` guarded by `"(" in field_desc`. -/
def fromFirstParen (s : String) : Option String :=
  if s.toList.any (· = '(') then some ⟨s.toList.dropWhile (· ≠ '(')⟩ else none

/-- The fixed type-alias table of the shorthand format. -/
def typeAlias (t : String) : String :=
  if t = "bool" then "boolean"
  else if t = "str" then "string"
  else if t = "int" then "integer"
  else if t = "float" then "number"
  else if t = "list" then "array"
  else if t = "dict" then "object"
  else t

/-- Parse one shorthand field into a property spec, mirroring the
simple-format branch: first whitespace token (IndexError when there is
none), alias table, description after `" - "` else from the first
parenthesis. -/
def parseSimpleField (name : String) : FieldDesc → Except String PropSpec
  | .str s =>
    match pySplitWs s with
    | [] => .error "IndexError: list index out of range"
    | tok :: _ =>
      let ty := typeAlias (pyStrip tok)
      let desc :=
        match splitOnce " - " s with
        | some after => some (pyStrip after)
        | none => (fromFirstParen s).map pyStrip
      .ok { type := some ty, description := desc, default := none }
  | .prop p => .ok p
  | .other r => .error ("Invalid field description for '" ++ name ++ "': " ++ r)

/-- The common (JSON-Schema) stage for one field: `type` defaults to
`"string"`, `is_required = (not has_required_key) or (name in required)`,
and a non-required field with no default becomes Optional with default
`None`. -/
def canonField (hasRequiredKey : Bool) (required : List String)
    (name : String) (p : PropSpec) : FieldSpec :=
  let ty := p.type.getD "string"
  let isReq := (!hasRequiredKey) || required.contains name
  match p.default with
  | some d =>
    { name := name, type := ty, required := isReq, description := p.description,
      default := some d, nullable := false }
  | none =>
    if isReq then
      { name := name, type := ty, required := isReq, description := p.description,
        default := none, nullable := false }
    else
      { name := name, type := ty, required := false, description := p.description,
        default := some .null, nullable := true }

/-- `providers._dict_schema_to_pydantic`, with the dynamic Pydantic
model represented as the ordered list of canonical field specs.
Shorthand dicts are auto-wrapped with all keys required; a failing field
raises at the first offending field, before any network call. -/
def _dict_schema_to_pydantic : SchemaDecl → Except String (List FieldSpec)
  | .notDict t => .error ("Schema must be dict or Pydantic BaseModel class, got " ++ t)
  | .simple fields => do
    let props ← fields.mapM fun nd => (parseSimpleField nd.1 nd.2).map fun p => (nd.1, p)
    let required := fields.map (·.1)
    .ok (props.map fun np => canonField true required np.1 np.2)
  | .full props required =>
    .ok (props.map fun np => canonField required.isSome (required.getD []) np.1 np.2)

/-! ## Dispatcher (`client.LLMClient.generate`) -/

/-- `providers.LLMResponse`. -/
structure LLMResponse where
  content : String
  model : String
  provider : String
  tokens_used : Nat
  cost : ℚ
  finish_reason : String
deriving Repr, DecidableEq

/-- One cache record as written by `_save_to_cache` (the `timestamp`
field, real wall-clock time, is not modelled). -/
structure CacheEntry where
  content : String
  model : String
  provider : String
  tokens_used : Nat
deriving Repr, DecidableEq

/-- Mutable client state: cumulative cost, request counter and the cache
directory (one record per key, modelled as an association list whose
head shadows older writes, like a file overwrite). -/
structure ClientState where
  total_cost : ℚ := 0
  request_count : Nat := 0
  cache : List (String × CacheEntry) := []
deriving Repr, DecidableEq

/-- A provider adapter: one blocking `provider.generate` call per model,
deterministic per descriptor. -/
def Adapter : Type := ModelConfig → Except String LLMResponse

/-- `_get_cache_key`: `sha256(f"[model]:[system or empty]:[prompt]")`,
with the hash abstracted as the preimage. -/
def cacheKey (prompt : String) (system_prompt : Option String) (model : String) : String :=
  model ++ ":" ++ (system_prompt.getD "") ++ ":" ++ prompt

/-- `_get_cached_response`: `none` when caching is disabled or the key
is absent, else the stored content. -/
def _get_cached_response (cfg : LLMConfig) (cache : List (String × CacheEntry))
    (key : String) : Option String :=
  if cfg.enable_caching then
    (cache.find? fun p => p.1 == key).map fun p => p.2.content
  else
    none

/-- The `if cached_content:` truthiness guard in `generate`: a hit only
when a content string is present AND non-empty. -/
def cachedTruthy (cfg : LLMConfig) (cache : List (String × CacheEntry))
    (key : String) : Option String :=
  match _get_cached_response cfg cache key with
  | some c => if c.isEmpty then none else some c
  | none => none

/-- `_save_to_cache`: no-op when caching is disabled, else write the
record under the key (overwriting any previous record). -/
def _save_to_cache (cfg : LLMConfig) (cache : List (String × CacheEntry))
    (key : String) (r : LLMResponse) : List (String × CacheEntry) :=
  if cfg.enable_caching then
    (key, { content := r.content, model := r.model, provider := r.provider,
            tokens_used := r.tokens_used }) :: cache
  else
    cache

/-- `_check_budget`. -/
def _check_budget (cfg : LLMConfig) (total_cost estimated_cost : ℚ) : Bool :=
  if !cfg.enable_cost_tracking then true
  else if total_cost + estimated_cost > cfg.max_cost_per_scan then false
  else true

/-- Model selection precedence inside `generate`/`generate_structured`:
explicit `model_config` override, else task-type specialized model, else
the policy primary. -/
def selectModel (cfg : LLMConfig) (task_type : Option String)
    (overrideModel : Option ModelConfig) : ModelConfig :=
  match overrideModel with
  | some m => m
  | none =>
    match task_type with
    | some t => cfg.get_model_for_task t
    | none => cfg.primary_model

/-- The fallback-filter loop of `generate`/`generate_structured`,
mirroring the `continue`/nested-`if` control flow of the source. -/
def fallbackFilterLoop (isLocalPrimary : Bool) (primaryName : String) :
    List ModelConfig → List ModelConfig
  | [] => []
  | fb :: rest =>
    if !fb.enabled then
      fallbackFilterLoop isLocalPrimary primaryName rest
    else if isLocal fb == isLocalPrimary then
      if fb.model_name ≠ primaryName then
        fb :: fallbackFilterLoop isLocalPrimary primaryName rest
      else
        fallbackFilterLoop isLocalPrimary primaryName rest
    else
      fallbackFilterLoop isLocalPrimary primaryName rest

/-- `models_to_try`: the selected model followed by the filtered
fallbacks (when fallback is enabled). -/
def modelsToTry (cfg : LLMConfig) (selected : ModelConfig) : List ModelConfig :=
  selected ::
    (if cfg.enable_fallback then
      fallbackFilterLoop (isLocal selected) selected.model_name cfg.fallback_models
    else
      [])

/-- Trace of the per-candidate retry loop. -/
structure RetryOut where
  result : Option LLMResponse
  lastErr : Option String
  invoked : List String
  delays : List ℚ
  logs : List String
deriving Repr, DecidableEq

/-- The inner `for attempt in range(max_retries)` loop of `generate` for
one candidate: `rem` attempts remain, `attempt` is the current index
(`rem + attempt = max_retries` at every call).  Each failed attempt
first emits the raw provider-level log (`providers.py` line 297:
`logger.error(f"LiteLLM completion failed: [e]")` — NOT sanitized),
then the client-level quota warning (when detected) and the sanitized
attempt-failure warning; a backoff sleep of `retry_delay * 2^attempt`
follows every attempt except the last. -/
def retryModel (cfg : LLMConfig) (adapter : Adapter) (m : ModelConfig) :
    Nat → Nat → RetryOut
  | 0, _ => { result := none, lastErr := none, invoked := [], delays := [], logs := [] }
  | rem + 1, attempt =>
    match adapter m with
    | .ok r =>
      { result := some r, lastErr := none, invoked := [m.model_name], delays := [],
        logs := [] }
    | .error e =>
      let provLog := "LiteLLM completion failed: " ++ e
      let quotaLogs :=
        if _is_quota_error e then
          ["Quota error for " ++ m.provider ++ "/" ++ m.model_name ++ ":" ++
            _get_quota_guidance m.model_name m.provider]
        else []
      let attLog := "Attempt " ++ toString (attempt + 1) ++ "/" ++ toString cfg.max_retries ++
        " failed for " ++ m.provider ++ "/" ++ m.model_name ++ ": " ++ _sanitize_log_message e
      if rem = 0 then
        { result := none, lastErr := some e, invoked := [m.model_name], delays := [],
          logs := [provLog] ++ quotaLogs ++ [attLog] }
      else
        let d := cfg.retry_delay * 2 ^ attempt
        let next := retryModel cfg adapter m rem (attempt + 1)
        { result := next.result, lastErr := next.lastErr <|> some e,
          invoked := m.model_name :: next.invoked, delays := d :: next.delays,
          logs := [provLog] ++ quotaLogs ++ [attLog] ++
            ["Retrying in " ++ q2s d ++ "s..."] ++ next.logs }

/-- Trace of the candidate loop. -/
structure LoopOut where
  result : Option LLMResponse
  state : ClientState
  lastErr : Option String
  attemptsCount : Nat
  invoked : List String
  delays : List ℚ
  logs : List String
deriving Repr, DecidableEq

/-- The outer `for model_idx, model in enumerate(models_to_try)` loop of
`generate`: skip disabled candidates, run the retry loop, and on success
update the ledger (`total_cost += response.cost`), bump the request
counter, write the cache and stop. -/
def tryCandidates (cfg : LLMConfig) (adapter : Adapter) (key : String) :
    List ModelConfig → ClientState → LoopOut
  | [], st =>
    { result := none, state := st, lastErr := none, attemptsCount := 0,
      invoked := [], delays := [], logs := [] }
  | m :: rest, st =>
    if m.enabled then
      let r := retryModel cfg adapter m cfg.max_retries 0
      match r.result with
      | some resp =>
        let st' : ClientState :=
          { total_cost := st.total_cost + resp.cost,
            request_count := st.request_count + 1,
            cache := _save_to_cache cfg st.cache key resp }
        { result := some resp, state := st', lastErr := r.lastErr, attemptsCount := 1,
          invoked := r.invoked, delays := r.delays,
          logs := r.logs ++
            ["Generation successful: " ++ m.provider ++ "/" ++ m.model_name ++
              " (tokens: " ++ toString resp.tokens_used ++ ", cost: $" ++ q2s resp.cost ++ ")"] }
      | none =>
        let tail := tryCandidates cfg adapter key rest st
        { result := tail.result, state := tail.state,
          lastErr := tail.lastErr <|> r.lastErr,
          attemptsCount := 1 + tail.attemptsCount,
          invoked := r.invoked ++ tail.invoked,
          delays := r.delays ++ tail.delays,
          logs := r.logs ++
            ["All attempts failed for " ++ m.provider ++ "/" ++ m.model_name ++
              ", trying next model..."] ++ tail.logs }
    else
      tryCandidates cfg adapter key rest st

/-- Tier label used in the exhaustion message. -/
def tierLabel (selected : ModelConfig) : String :=
  if lowerStr selected.provider == "ollama" then "local (Ollama)" else "cloud"

/-- Tier-specific troubleshooting tip appended to exhaustion messages. -/
def tierTip (tier : String) : String :=
  if tier = "local (Ollama)" then "\n→ Check Ollama server: http://localhost:11434/api/tags"
  else "\n→ Check API keys and network connectivity"

/-- The aggregated error message of `generate` when every candidate is
exhausted. -/
def exhaustionMsg (selected : ModelConfig) (attemptsCount : Nat)
    (lastErr : Option String) : String :=
  let tier := tierLabel selected
  let base := "All " ++ tier ++ " models failed (tried " ++ toString attemptsCount ++ " model(s))."
  match lastErr with
  | some e =>
    if _is_quota_error e then
      base ++ _get_quota_guidance selected.model_name selected.provider ++
        "\nProvider message: " ++ _sanitize_log_message e
    else
      base ++ "\nLast error: " ++ _sanitize_log_message e ++ tierTip tier
  | none =>
    base ++ "\nNo enabled models available in this tier." ++ tierTip tier

/-- The `RuntimeError` message raised when the budget check denies. -/
def budgetErrorMsg (cfg : LLMConfig) (total : ℚ) : String :=
  "LLM budget exceeded: $" ++ q2s total ++ " spent > $" ++ q2s cfg.max_cost_per_scan ++
    " limit. Increase budget with: LLMConfig(max_cost_per_scan=" ++
    q2s (cfg.max_cost_per_scan * 2) ++ ")"

/-- The `logger.error` line emitted by `_check_budget` on denial. -/
def budgetLogMsg (cfg : LLMConfig) (total estimated : ℚ) : String :=
  "Budget exceeded: $" ++ q2s total ++ " + $" ++ q2s estimated ++ " > $" ++
    q2s cfg.max_cost_per_scan

/-- Outcome of one `generate` dispatch. -/
inductive GenOutcome
  | success (r : LLMResponse)
  | budgetExceeded (msg : String)
  | exhausted (msg : String)
deriving Repr, DecidableEq

/-- Full trace of one `generate` dispatch. -/
structure GenResult where
  outcome : GenOutcome
  state : ClientState
  invoked : List String
  delays : List ℚ
  logs : List String
deriving Repr, DecidableEq

/-- `LLMClient.generate`: budget check (proposed cost `0.1`), model
selection, cache lookup (truthy hit returns the cached content with zero
tokens/cost and `finish_reason = "cached"`), then the tier-filtered
candidate loop; exhaustion raises the aggregated `RuntimeError`. -/
def generate (cfg : LLMConfig) (adapter : Adapter) (st : ClientState)
    (prompt : String) (system_prompt : Option String)
    (task_type : Option String) (overrideModel : Option ModelConfig) : GenResult :=
  if !_check_budget cfg st.total_cost (1/10) then
    { outcome := .budgetExceeded (budgetErrorMsg cfg st.total_cost),
      state := st, invoked := [], delays := [],
      logs := [budgetLogMsg cfg st.total_cost (1/10)] }
  else
    let selected := selectModel cfg task_type overrideModel
    let key := cacheKey prompt system_prompt selected.model_name
    match cachedTruthy cfg st.cache key with
    | some c =>
      { outcome := .success
          { content := c, model := selected.model_name, provider := selected.provider,
            tokens_used := 0, cost := 0, finish_reason := "cached" },
        state := { st with request_count := st.request_count + 1 },
        invoked := [], delays := [], logs := [] }
    | none =>
      let lo := tryCandidates cfg adapter key (modelsToTry cfg selected) st
      match lo.result with
      | some resp =>
        { outcome := .success resp, state := lo.state, invoked := lo.invoked,
          delays := lo.delays, logs := lo.logs }
      | none =>
        let msg := exhaustionMsg selected lo.attemptsCount lo.lastErr
        { outcome := .exhausted msg, state := lo.state, invoked := lo.invoked,
          delays := lo.delays, logs := lo.logs ++ [msg] }

/-! ## Structured dispatch (`client.LLMClient.generate_structured`,
`providers.LiteLLMProvider.generate_structured`) -/

/-- The network layer behind a structured call (instructor + LiteLLM),
reached only after schema compilation succeeds: returns the parsed dict
and the serialized full response. -/
def StructuredNet : Type := ModelConfig → Except String (List (String × PyVal) × String)

/-- Trace of one `LiteLLMProvider.generate_structured` call. -/
structure ProvSOut where
  result : Except String (List (String × PyVal) × String)
  netCalls : Nat
  tokensDelta : Nat
  costDelta : ℚ
  logs : List String
deriving Repr

/-- `LiteLLMProvider.generate_structured`: compile the schema first
(`_dict_schema_to_pydantic` is OUTSIDE the provider's try/except, so its
exception propagates with no provider log and no network call); then one
network call, whose failure is logged RAW (`providers.py` line 377) and
re-raised, and whose success tracks the length-estimated usage. -/
def provider_generate_structured (net : StructuredNet) (m : ModelConfig)
    (prompt : String) (schema : SchemaDecl) : ProvSOut :=
  match _dict_schema_to_pydantic schema with
  | .error e =>
    { result := .error e, netCalls := 0, tokensDelta := 0, costDelta := 0, logs := [] }
  | .ok _fields =>
    match net m with
    | .error e =>
      { result := .error e, netCalls := 1, tokensDelta := 0, costDelta := 0,
        logs := ["Structured generation failed: " ++ e] }
    | .ok (d, full) =>
      let estTok := (prompt.length + full.length) / 4
      let estCost := (estTok : ℚ) / 1000 * m.cost_per_1k_tokens
      { result := .ok (d, full), netCalls := 1, tokensDelta := estTok,
        costDelta := estCost, logs := [] }

/-- Trace of the structured per-candidate retry loop. -/
structure RetrySOut where
  result : Option (List (String × PyVal) × String)
  tokensDelta : Nat
  costDelta : ℚ
  lastErr : Option String
  invoked : List String
  netCalls : Nat
  delays : List ℚ
  logs : List String
deriving Repr, DecidableEq

/-- The inner retry loop of `generate_structured` for one candidate;
same backoff as `generate`, but the attempt-failure warning line wraps
the whole formatted message in `_sanitize_log_message`, and no
"All attempts failed" line is emitted afterwards. -/
def retryModelS (cfg : LLMConfig) (net : StructuredNet) (schema : SchemaDecl)
    (prompt : String) (m : ModelConfig) : Nat → Nat → RetrySOut
  | 0, _ =>
    { result := none, tokensDelta := 0, costDelta := 0, lastErr := none,
      invoked := [], netCalls := 0, delays := [], logs := [] }
  | rem + 1, attempt =>
    let p := provider_generate_structured net m prompt schema
    match p.result with
    | .ok r =>
      { result := some r, tokensDelta := p.tokensDelta, costDelta := p.costDelta,
        lastErr := none, invoked := [m.model_name], netCalls := p.netCalls,
        delays := [], logs := p.logs }
    | .error e =>
      let quotaLogs :=
        if _is_quota_error e then
          ["Quota error for " ++ m.provider ++ "/" ++ m.model_name ++ ":" ++
            _get_quota_guidance m.model_name m.provider]
        else []
      let attLog := _sanitize_log_message
        ("Structured generation attempt " ++ toString (attempt + 1) ++ " failed: " ++ e)
      if rem = 0 then
        { result := none, tokensDelta := 0, costDelta := 0, lastErr := some e,
          invoked := [m.model_name], netCalls := p.netCalls, delays := [],
          logs := p.logs ++ quotaLogs ++ [attLog] }
      else
        let d := cfg.retry_delay * 2 ^ attempt
        let next := retryModelS cfg net schema prompt m rem (attempt + 1)
        { result := next.result, tokensDelta := next.tokensDelta,
          costDelta := next.costDelta, lastErr := next.lastErr <|> some e,
          invoked := m.model_name :: next.invoked, netCalls := p.netCalls + next.netCalls,
          delays := d :: next.delays,
          logs := p.logs ++ quotaLogs ++ [attLog] ++
            ["Retrying in " ++ q2s d ++ "s..."] ++ next.logs }

/-- Trace of the structured candidate loop. -/
structure LoopSOut where
  result : Option (List (String × PyVal) × String)
  state : ClientState
  lastErr : Option String
  attemptsCount : Nat
  invoked : List String
  netCalls : Nat
  delays : List ℚ
  logs : List String
deriving Repr, DecidableEq

/-- The outer candidate loop of `generate_structured`: on success the
provider's cost/token delta is added to the client ledger; no cache is
consulted or written. -/
def tryCandidatesS (cfg : LLMConfig) (net : StructuredNet) (schema : SchemaDecl)
    (prompt : String) : List ModelConfig → ClientState → LoopSOut
  | [], st =>
    { result := none, state := st, lastErr := none, attemptsCount := 0,
      invoked := [], netCalls := 0, delays := [], logs := [] }
  | m :: rest, st =>
    if m.enabled then
      let r := retryModelS cfg net schema prompt m cfg.max_retries 0
      match r.result with
      | some res =>
        let st' : ClientState :=
          { total_cost := st.total_cost + r.costDelta,
            request_count := st.request_count + 1,
            cache := st.cache }
        { result := some res, state := st', lastErr := r.lastErr, attemptsCount := 1,
          invoked := r.invoked, netCalls := r.netCalls, delays := r.delays,
          logs := r.logs ++
            ["Structured generation successful: " ++ m.provider ++ "/" ++ m.model_name ++
              " (tokens: " ++ toString r.tokensDelta ++ ", cost: $" ++ q2s r.costDelta ++ ")"] }
      | none =>
        let tail := tryCandidatesS cfg net schema prompt rest st
        { result := tail.result, state := tail.state,
          lastErr := tail.lastErr <|> r.lastErr,
          attemptsCount := 1 + tail.attemptsCount,
          invoked := r.invoked ++ tail.invoked,
          netCalls := r.netCalls + tail.netCalls,
          delays := r.delays ++ tail.delays,
          logs := r.logs ++ tail.logs }
    else
      tryCandidatesS cfg net schema prompt rest st

/-- The aggregated error message of `generate_structured` on exhaustion. -/
def exhaustionMsgS (selected : ModelConfig) (attemptsCount : Nat)
    (lastErr : Option String) : String :=
  let tier := tierLabel selected
  let base := "Structured generation failed for all " ++ tier ++ " models (tried " ++
    toString attemptsCount ++ " model(s))."
  match lastErr with
  | some e =>
    if _is_quota_error e then
      base ++ _get_quota_guidance selected.model_name selected.provider ++
        "\nProvider message: " ++ _sanitize_log_message e
    else
      base ++ "\nLast error: " ++ _sanitize_log_message e ++ tierTip tier
  | none =>
    base ++ "\nNo enabled models available in this tier." ++ tierTip tier

/-- Outcome of one `generate_structured` dispatch. -/
inductive GenSOutcome
  | success (r : List (String × PyVal) × String)
  | budgetExceeded (msg : String)
  | exhausted (msg : String)
deriving Repr, DecidableEq

/-- Full trace of one `generate_structured` dispatch. -/
structure GenSResult where
  outcome : GenSOutcome
  state : ClientState
  invoked : List String
  netCalls : Nat
  delays : List ℚ
  logs : List String
deriving Repr, DecidableEq

/-- `LLMClient.generate_structured`: budget check, model selection, then
the tier-filtered candidate loop (no cache path exists here). -/
def generate_structured (cfg : LLMConfig) (net : StructuredNet) (st : ClientState)
    (prompt : String) (schema : SchemaDecl) (_system_prompt : Option String)
    (task_type : Option String) (overrideModel : Option ModelConfig) : GenSResult :=
  if !_check_budget cfg st.total_cost (1/10) then
    { outcome := .budgetExceeded (budgetErrorMsg cfg st.total_cost),
      state := st, invoked := [], netCalls := 0, delays := [],
      logs := [budgetLogMsg cfg st.total_cost (1/10)] }
  else
    let selected := selectModel cfg task_type overrideModel
    let lo := tryCandidatesS cfg net schema prompt (modelsToTry cfg selected) st
    match lo.result with
    | some res =>
      { outcome := .success res, state := lo.state, invoked := lo.invoked,
        netCalls := lo.netCalls, delays := lo.delays, logs := lo.logs }
    | none =>
      let msg := exhaustionMsgS selected lo.attemptsCount lo.lastErr
      { outcome := .exhausted msg, state := lo.state, invoked := lo.invoked,
        netCalls := lo.netCalls, delays := lo.delays, logs := lo.logs ++ [msg] }

/-! ## Concrete instances used by witnesses and counterexamples -/

/-- Two enabled local candidates for exercising the exhaustion count. -/
def exA : ModelConfig := { provider := "ollama", model_name := "a" }
def exB : ModelConfig := { provider := "ollama", model_name := "b" }
def exCfgAB : LLMConfig :=
  { primary_model := exA, fallback_models := [exB],
    enable_caching := false, enable_cost_tracking := false }

/-- An adapter whose every invocation raises. -/
def failAdapter : Adapter := fun _ => .error "boom"

/-- Policy whose fallback list holds the same enabled same-tier model
twice. -/
def dupB : ModelConfig := { provider := "ollama", model_name := "b" }
def dupR : ModelConfig := { provider := "openai", model_name := "r" }
def dupCfg : LLMConfig :=
  { primary_model := exA, fallback_models := [dupB, dupR, dupB] }

/-- Policy with a zero budget ceiling and cost tracking enabled. -/
def budgetCfg : LLMConfig :=
  { primary_model := { provider := "openai", model_name := "m" },
    fallback_models := [], max_cost_per_scan := 0 }

def okNet : StructuredNet := fun _ => .ok ([], "x")
def okAdapter : Adapter :=
  fun _ => .ok { content := "hi", model := "m", provider := "openai",
                 tokens_used := 1, cost := 0, finish_reason := "stop" }

/-- Two enabled cloud candidates, two retries, for the schema-error
propagation run. -/
def schP : ModelConfig := { provider := "openai", model_name := "p" }
def schQ : ModelConfig := { provider := "openai", model_name := "q" }
def schCfg : LLMConfig :=
  { primary_model := schP, fallback_models := [schQ], max_retries := 2,
    enable_cost_tracking := false }
def badSchema : SchemaDecl := .notDict "int"

/-- Caching-enabled policy with one candidate and one retry, and an
adapter that succeeds with EMPTY content. -/
def cacheM : ModelConfig := { provider := "openai", model_name := "m" }
def cacheCfg : LLMConfig :=
  { primary_model := cacheM, fallback_models := [], max_retries := 1,
    enable_cost_tracking := false }
def emptyResp : LLMResponse :=
  { content := "", model := "m", provider := "openai", tokens_used := 1,
    cost := 0, finish_reason := "stop" }
def emptyAdapter : Adapter := fun _ => .ok emptyResp
/-- Client state after the first (successful, empty-content) call. -/
def cacheSt1 : ClientState := (generate cacheCfg emptyAdapter {} "p" none none none).state

/-- Adapter that succeeds with non-empty content, for the amended cache
idempotence witness. -/
def helloResp : LLMResponse :=
  { content := "hello", model := "m", provider := "openai", tokens_used := 7,
    cost := 0, finish_reason := "stop" }
def helloAdapter : Adapter := fun _ => .ok helloResp

/-- An adapter error text carrying an OpenAI-style secret token. -/
def secretErr : String := "Authentication failed: invalid key sk-aaaaaaaaaaaaaaaaaaaa"
def secretCfg : LLMConfig :=
  { primary_model := { provider := "openai", model_name := "m" },
    fallback_models := [], max_retries := 1,
    enable_caching := false, enable_cost_tracking := false }
def secretAdapter : Adapter := fun _ => .error secretErr

/-- A remote-tier (cloud) model with a non-local api_base, two retries. -/
def remoteM : ModelConfig :=
  { provider := "openai", model_name := "m", api_base := some "https://api.openai.com/v1" }
def remoteCfg : LLMConfig :=
  { primary_model := remoteM, fallback_models := [], max_retries := 2,
    enable_caching := false, enable_cost_tracking := false }

/-- State holding a cached entry for `cacheKey "ping" none "m"`. -/
def hitEntry : CacheEntry :=
  { content := "cached-answer", model := "m", provider := "openai", tokens_used := 50 }
def hitSt : ClientState := { cache := [("m::ping", hitEntry)] }

/-! ## Helper lemmas -/

theorem length_flatMap_replicate {α β : Type} (l : List α) (k : Nat) (f : α → β) :
    (l.flatMap fun a => List.replicate k (f a)).length = l.length * k := by
  induction l with
  | nil => simp
  | cons a t ih => simp [List.flatMap_cons, ih, Nat.succ_mul, Nat.add_comm]

theorem chain_le_range_map (f : ℕ → ℚ) (hf : ∀ i, f i ≤ f (i + 1)) :
    ∀ (n s : ℕ), List.Chain' (· ≤ ·) ((List.range' s n).map f)
  | 0, _ => by simp
  | 1, s => by simp
  | n + 2, s => by
    rw [List.range'_succ, List.range'_succ, List.map_cons, List.map_cons,
      List.chain'_cons]
    refine ⟨hf s, ?_⟩
    rw [← List.map_cons, ← List.range'_succ]
    exact chain_le_range_map f hf (n + 1) (s + 1)

theorem fallbackFilterLoop_eq_filter (ip : Bool) (nm : String) :
    ∀ l : List ModelConfig,
      fallbackFilterLoop ip nm l =
        l.filter fun fb => fb.enabled && (isLocal fb == ip) && fb.model_name != nm := by
  intro l
  induction l with
  | nil => rfl
  | cons fb rest ih =>
    by_cases h1 : fb.enabled
    · by_cases h2 : isLocal fb = ip
      · by_cases h3 : fb.model_name = nm
        · simp [fallbackFilterLoop, List.filter_cons, h1, h2, h3, ih]
        · simp [fallbackFilterLoop, List.filter_cons, h1, h2, h3, ih]
      · simp [fallbackFilterLoop, List.filter_cons, h1, h2, ih]
    · simp [fallbackFilterLoop, List.filter_cons, h1, ih]

theorem retryModel_allFail (cfg : LLMConfig) (adapter : Adapter) (m : ModelConfig)
    (hfail : ∀ mc, ∃ e, adapter mc = .error e) :
    ∀ (rem attempt : ℕ),
      (retryModel cfg adapter m rem attempt).result = none ∧
      (retryModel cfg adapter m rem attempt).invoked = List.replicate rem m.model_name ∧
      (retryModel cfg adapter m rem attempt).delays =
        (List.range' attempt (rem - 1)).map (fun i => cfg.retry_delay * 2 ^ i)
  | 0, attempt => by simp [retryModel]
  | rem + 1, attempt => by
    obtain ⟨e, he⟩ := hfail m
    cases rem with
    | zero =>
      simp [retryModel, he, List.replicate]
    | succ k =>
      have ih := retryModel_allFail cfg adapter m hfail (k + 1) (attempt + 1)
      simp only [retryModel, he] at ih ⊢
      rw [if_neg (Nat.succ_ne_zero k)]
      simp only [Nat.add_sub_cancel] at ih ⊢
      refine ⟨ih.1, ?_, ?_⟩
      · rw [List.replicate_succ]
        exact congrArg (m.model_name :: ·) ih.2.1
      · rw [List.range'_succ, List.map_cons]
        exact congrArg (cfg.retry_delay * 2 ^ attempt :: ·) ih.2.2

theorem tryCandidates_allFail (cfg : LLMConfig) (adapter : Adapter) (key : String)
    (hfail : ∀ mc, ∃ e, adapter mc = .error e) :
    ∀ (models : List ModelConfig) (st : ClientState),
      (tryCandidates cfg adapter key models st).result = none ∧
      (tryCandidates cfg adapter key models st).state = st ∧
      (tryCandidates cfg adapter key models st).attemptsCount =
        (models.filter fun m => m.enabled).length ∧
      (tryCandidates cfg adapter key models st).invoked =
        (models.filter fun m => m.enabled).flatMap
          (fun m => List.replicate cfg.max_retries m.model_name) ∧
      (tryCandidates cfg adapter key models st).delays =
        (models.filter fun m => m.enabled).flatMap
          (fun _ => (List.range' 0 (cfg.max_retries - 1)).map
            fun i => cfg.retry_delay * 2 ^ i) := by
  intro models
  induction models with
  | nil => intro st; simp [tryCandidates]
  | cons m rest ih =>
    intro st
    by_cases hm : m.enabled
    · have hr := retryModel_allFail cfg adapter m hfail cfg.max_retries 0
      have iht := ih st
      simp only [tryCandidates, hm, if_true, hr.1]
      rw [List.filter_cons_of_pos (by simp [hm])]
      simp only [List.flatMap_cons, List.length_cons]
      refine ⟨iht.1, iht.2.1, ?_, ?_, ?_⟩
      · simp [iht.2.2.1, Nat.add_comm]
      · rw [hr.2.1, iht.2.2.2.1]
      · rw [hr.2.2, iht.2.2.2.2]
    · simp only [tryCandidates, hm, if_false]
      rw [List.filter_cons_of_neg (by simp [hm])]
      exact ih st

theorem tryCandidates_success_cache (cfg : LLMConfig) (adapter : Adapter) (key : String) :
    ∀ (models : List ModelConfig) (st : ClientState) (resp : LLMResponse),
      (tryCandidates cfg adapter key models st).result = some resp →
      (tryCandidates cfg adapter key models st).state.cache =
        _save_to_cache cfg st.cache key resp := by
  intro models
  induction models with
  | nil => intro st resp h; simp [tryCandidates] at h
  | cons m rest ih =>
    intro st resp h
    by_cases hm : m.enabled
    · simp only [tryCandidates, hm, if_true] at h ⊢
      cases hres : (retryModel cfg adapter m cfg.max_retries 0).result with
      | some r =>
        rw [hres] at h
        have h' : some r = some resp := h
        obtain rfl : r = resp := by injection h'
        rfl
      | none =>
        rw [hres] at h
        exact ih st resp h
    · simp only [tryCandidates, hm, if_false] at h ⊢
      exact ih st resp h

theorem provSOut_compileFail (net : StructuredNet) (m : ModelConfig) (prompt : String)
    (schema : SchemaDecl) (ce : String)
    (hcomp : _dict_schema_to_pydantic schema = .error ce) :
    provider_generate_structured net m prompt schema =
      { result := .error ce, netCalls := 0, tokensDelta := 0, costDelta := 0, logs := [] } := by
  simp [provider_generate_structured, hcomp]

theorem retryModelS_compileFail (cfg : LLMConfig) (net : StructuredNet)
    (schema : SchemaDecl) (prompt : String) (m : ModelConfig) (ce : String)
    (hcomp : _dict_schema_to_pydantic schema = .error ce) :
    ∀ (rem attempt : ℕ),
      (retryModelS cfg net schema prompt m rem attempt).result = none ∧
      (retryModelS cfg net schema prompt m rem attempt).invoked =
        List.replicate rem m.model_name ∧
      (retryModelS cfg net schema prompt m rem attempt).netCalls = 0
  | 0, attempt => by simp [retryModelS]
  | rem + 1, attempt => by
    have hp := provSOut_compileFail net m prompt schema ce hcomp
    cases rem with
    | zero =>
      simp [retryModelS, hp, List.replicate]
    | succ k =>
      have ih := retryModelS_compileFail cfg net schema prompt m ce hcomp (k + 1) (attempt + 1)
      simp only [retryModelS, hp] at ih ⊢
      rw [if_neg (Nat.succ_ne_zero k)]
      refine ⟨ih.1, ?_, ?_⟩
      · rw [List.replicate_succ]
        exact congrArg (m.model_name :: ·) ih.2.1
      · simpa using ih.2.2

theorem tryCandidatesS_compileFail (cfg : LLMConfig) (net : StructuredNet)
    (schema : SchemaDecl) (prompt : String) (ce : String)
    (hcomp : _dict_schema_to_pydantic schema = .error ce) :
    ∀ (models : List ModelConfig) (st : ClientState),
      (tryCandidatesS cfg net schema prompt models st).result = none ∧
      (tryCandidatesS cfg net schema prompt models st).state = st ∧
      (tryCandidatesS cfg net schema prompt models st).netCalls = 0 ∧
      (tryCandidatesS cfg net schema prompt models st).invoked =
        (models.filter fun m => m.enabled).flatMap
          (fun m => List.replicate cfg.max_retries m.model_name) := by
  intro models
  induction models with
  | nil => intro st; simp [tryCandidatesS]
  | cons m rest ih =>
    intro st
    by_cases hm : m.enabled
    · have hr := retryModelS_compileFail cfg net schema prompt m ce hcomp cfg.max_retries 0
      have iht := ih st
      simp only [tryCandidatesS, hm, if_true, hr.1]
      rw [List.filter_cons_of_pos (by simp [hm])]
      simp only [List.flatMap_cons]
      refine ⟨iht.1, iht.2.1, ?_, ?_⟩
      · simp [hr.2.2, iht.2.2.1]
      · rw [hr.2.1, iht.2.2.2]
    · simp only [tryCandidatesS, hm, if_false]
      rw [List.filter_cons_of_neg (by simp [hm])]
      exact ih st

/-! ## Claim theorems -/

/-- C8: compiling the shorthand declaration
`\x7b"is_exploitable": "boolean", "score": "float (0-1)"\x7d` yields a
canonical schema with exactly two fields, both required, of types
`boolean` and `number` respectively, with description `"(0-1)"` attached
to `score` and no description on `is_exploitable`. -/
theorem c8_shorthand_compilation :
    _dict_schema_to_pydantic (.simple
      [("is_exploitable", .str "boolean"), ("score", .str "float (0-1)")]) =
    .ok [
      { name := "is_exploitable", type := "boolean", required := true,
        description := none, default := none, nullable := false },
      { name := "score", type := "number", required := true,
        description := some "(0-1)", default := none, nullable := false } ] := by
  rfl

/-- C9 counterexample: constructing a `ModelConfig` with empty provider
and model ids and negative max tokens, temperature, timeout and cost,
and an `LLMConfig` with negative retry delays and a negative budget
ceiling, SUCCEEDS — no configuration error is raised at construction
time, refuting the claim that construction fails. -/
theorem c9_no_validation_counterexample :
    (mkModelConfig "" "" none none (-5) (-1) (-7) (-2) true).isOk = true ∧
    (mkLLMConfig { provider := "", model_name := "" } [] [] true 0 (-3) (-4)
      true true (-1)).isOk = true := by
  exact ⟨rfl, rfl⟩

/-- C9 (amended): construction of a model descriptor or dispatch policy
performs NO validation: any field values, including empty provider/model
ids and negative numeric parameters, are accepted and stored verbatim;
the constructor never signals a configuration error. -/
theorem c9_construction_never_fails (provider model_name : String)
    (api_key api_base : Option String) (max_tokens : Int) (temperature : ℚ)
    (timeout : Int) (cost : ℚ) (enabled : Bool)
    (primary : ModelConfig) (fallbacks : List ModelConfig)
    (specialized : List (String × ModelConfig)) (ef : Bool) (mr : Nat)
    (rd rdr : ℚ) (ec ect : Bool) (mc : ℚ) :
    mkModelConfig provider model_name api_key api_base max_tokens temperature
      timeout cost enabled =
      .ok { provider := provider, model_name := model_name, api_key := api_key,
            api_base := api_base, max_tokens := max_tokens,
            temperature := temperature, timeout := timeout,
            cost_per_1k_tokens := cost, enabled := enabled } ∧
    mkLLMConfig primary fallbacks specialized ef mr rd rdr ec ect mc =
      .ok { primary_model := primary, fallback_models := fallbacks,
            specialized_models := specialized, enable_fallback := ef,
            max_retries := mr, retry_delay := rd, retry_delay_remote := rdr,
            enable_caching := ec, enable_cost_tracking := ect,
            max_cost_per_scan := mc } := by
  exact ⟨rfl, rfl⟩

/-- C2 counterexample: with primary `a` (ollama) and fallbacks
`[b, r, b]` (`b` local and enabled twice, `r` remote), the effective
candidate list is `[a, b, b]`: the model id `b` appears a second time
although it is identical to one already attempted, refuting the claimed
"no model id identical to one already attempted" filter (only identity
with the SELECTED model's id is filtered). -/
theorem c2_duplicate_fallback_counterexample :
    ((modelsToTry dupCfg dupCfg.primary_model).map fun m => m.model_name) =
      ["a", "b", "b"] ∧
    ¬ ((modelsToTry dupCfg dupCfg.primary_model).map fun m => m.model_name).Nodup := by
  exact ⟨by decide, by decide⟩

/-- C2 (amended): for every dispatch, the effective candidate list
equals the selected primary/override followed by the policy's fallback
descriptors filtered to the same tier as the selected model (local =
provider "ollama", everything else remote), with `enabled == true`, and
with model id different from the SELECTED model's id (duplicates among
the fallbacks themselves are kept), in policy order; in particular every
candidate's tier equals the selected model's tier. -/
theorem c2_candidate_list_amended (cfg : LLMConfig) (selected : ModelConfig) :
    modelsToTry cfg selected =
      selected ::
        (if cfg.enable_fallback then
          cfg.fallback_models.filter fun fb =>
            fb.enabled && (isLocal fb == isLocal selected) &&
              fb.model_name != selected.model_name
        else []) ∧
    ∀ m ∈ modelsToTry cfg selected, isLocal m = isLocal selected := by
  constructor
  · unfold modelsToTry
    rw [fallbackFilterLoop_eq_filter]
  · intro m hm
    unfold modelsToTry at hm
    rcases List.mem_cons.mp hm with rfl | hm'
    · rfl
    · by_cases hf : cfg.enable_fallback
      · rw [if_pos hf, fallbackFilterLoop_eq_filter] at hm'
        have := List.of_mem_filter hm'
        simp only [Bool.and_eq_true, bne_iff_ne, beq_iff_eq] at this
        exact this.1.2
      · rw [if_neg hf] at hm'
        simp at hm'

/-- C2 (amended) witness: instantiating the tier-isolation part at the
concrete duplicate-fallback policy and its second candidate. -/
theorem c2_candidate_list_amended_witness :
    dupB ∈ modelsToTry dupCfg dupCfg.primary_model ∧
    isLocal dupB = isLocal dupCfg.primary_model := by
  have hlist : modelsToTry dupCfg dupCfg.primary_model = [exA, dupB, dupB] := rfl
  refine ⟨by rw [hlist]; simp, ?_⟩
  exact (c2_candidate_list_amended dupCfg dupCfg.primary_model).2 dupB
    (by rw [hlist]; simp)

/-- C6 (code bug): when the adapter raises an error whose text carries a
recognizable `sk-…` secret token, the dispatch DOES emit a log line
containing that token verbatim — the provider-level
`logger.error(f"LiteLLM completion failed: ...")` at `providers.py:297`
logs the raw exception text without `_sanitize_log_message` — even
though the redaction filter, had it been applied, would have removed the
pattern (second conjunct), and the client-level attempt log does apply
it.  This contradicts the documented defense-in-depth log-sanitization
policy. -/
theorem c6_raw_provider_log_leaks_secret :
    ((generate secretCfg secretAdapter {} "p" none none none).logs.any containsSecret) = true ∧
    containsSecret (_sanitize_log_message secretErr) = false ∧
    ((generate secretCfg secretAdapter {} "p" none none none).logs.any
      fun l => strContains l "sk-aaaaaaaaaaaaaaaaaaaa") = true := by
  exact ⟨by decide, by decide, by decide⟩

/-- C4 counterexample: with the non-dict schema declaration, two enabled
cloud candidates and `max_retries = 2`, `generate_structured` does NOT
short-circuit on the schema-compilation error: the provider is invoked
four times (the error is retried on each candidate and propagated
through the fallback list), although no network call is ever made, and
the surfaced error is the aggregated exhaustion error. -/
theorem c4_schema_error_retried_counterexample :
    (generate_structured schCfg okNet {} "p" badSchema none none none).invoked =
      ["p", "p", "q", "q"] ∧
    (generate_structured schCfg okNet {} "p" badSchema none none none).netCalls = 0 ∧
    (∃ msg, (generate_structured schCfg okNet {} "p" badSchema none none none).outcome =
      .exhausted msg) := by
  exact ⟨by decide, by decide, ⟨_, rfl⟩⟩

/-- C5 counterexample: with caching enabled, after a SUCCESSFUL call
whose response content is the empty string, issuing the same
(model, system prompt, user prompt) a second time invokes the adapter
again (the `if cached_content:` truthiness guard treats the stored empty
content as a miss), refuting the claimed zero adapter invocations on the
second call. -/
theorem c5_empty_content_cache_counterexample :
    (generate cacheCfg emptyAdapter {} "p" none none none).outcome = .success emptyResp ∧
    cacheCfg.enable_caching = true ∧
    (generate cacheCfg emptyAdapter cacheSt1 "p" none none none).invoked = ["m"] := by
  exact ⟨by decide, by decide, by decide⟩

/-- C7 counterexample: for the remote-tier candidate `remoteM` (cloud
provider, non-local `api_base`), the delay slept after failed attempt 0
is `retry_delay = 2`, not `baseDelay(remote) * 2^0 = retry_delay_remote
= 5`: `generate` uses the flat `retry_delay`, never the tier-dependent
`get_retry_delay`. -/
theorem c7_tier_base_delay_counterexample :
    (generate remoteCfg failAdapter {} "p" none none none).delays = [2] ∧
    remoteCfg.get_retry_delay remoteM.api_base = 5 ∧ (2 : ℚ) ≠ 5 := by
  refine ⟨?_, by decide, by decide⟩
  simp [generate, _check_budget, remoteCfg, cachedTruthy, _get_cached_response,
    modelsToTry, selectModel, tryCandidates, retryModel, failAdapter, remoteM,
    fallbackFilterLoop]

/-- C1: for every policy whose budget check passes and whose cache
misses, and an adapter whose every invocation raises, `generate` raises
the aggregated exhaustion error after invoking the adapter exactly
`N * maxRetries` times — `maxRetries` consecutive times for each of the
`N` enabled candidates (the selected model plus the tier-filtered
enabled fallbacks), in candidate order. -/
theorem c1_always_failing_adapter_exhausts (cfg : LLMConfig) (adapter : Adapter)
    (st : ClientState) (prompt : String) (system_prompt task_type : Option String)
    (ov : Option ModelConfig)
    (hbudget : _check_budget cfg st.total_cost (1/10) = true)
    (hmiss : cachedTruthy cfg st.cache
      (cacheKey prompt system_prompt (selectModel cfg task_type ov).model_name) = none)
    (hfail : ∀ mc, ∃ e, adapter mc = .error e) :
    (∃ msg, (generate cfg adapter st prompt system_prompt task_type ov).outcome =
      .exhausted msg) ∧
    (generate cfg adapter st prompt system_prompt task_type ov).invoked =
      ((modelsToTry cfg (selectModel cfg task_type ov)).filter fun m => m.enabled).flatMap
        (fun m => List.replicate cfg.max_retries m.model_name) ∧
    (generate cfg adapter st prompt system_prompt task_type ov).invoked.length =
      ((modelsToTry cfg (selectModel cfg task_type ov)).filter fun m => m.enabled).length *
        cfg.max_retries := by
  have hl := tryCandidates_allFail cfg adapter
    (cacheKey prompt system_prompt (selectModel cfg task_type ov).model_name) hfail
    (modelsToTry cfg (selectModel cfg task_type ov)) st
  simp only [generate, hbudget, Bool.not_true, Bool.false_eq_true, if_false, hmiss, hl.1]
  refine ⟨⟨_, rfl⟩, ?_, ?_⟩
  · exact hl.2.2.2.1
  · rw [hl.2.2.2.1]
    exact length_flatMap_replicate _ _ _

/-- C3: whenever cost tracking is enabled and the ledger's cumulative
cost plus the proposed cost (0.1) exceeds the configured ceiling, both
`generate` and `generate_structured` raise the budget-exceeded error
immediately: no adapter is invoked, no network call is made, no backoff
sleep happens, and the state is unchanged — the error is neither retried
nor fallen back past. -/
theorem c3_budget_denial_short_circuits (cfg : LLMConfig) (adapter : Adapter)
    (net : StructuredNet) (st : ClientState) (prompt : String)
    (system_prompt task_type : Option String) (ov : Option ModelConfig)
    (schema : SchemaDecl)
    (htrack : cfg.enable_cost_tracking = true)
    (hover : st.total_cost + 1/10 > cfg.max_cost_per_scan) :
    ((generate cfg adapter st prompt system_prompt task_type ov).outcome =
        .budgetExceeded (budgetErrorMsg cfg st.total_cost) ∧
      (generate cfg adapter st prompt system_prompt task_type ov).invoked = [] ∧
      (generate cfg adapter st prompt system_prompt task_type ov).delays = [] ∧
      (generate cfg adapter st prompt system_prompt task_type ov).state = st) ∧
    ((generate_structured cfg net st prompt schema system_prompt task_type ov).outcome =
        .budgetExceeded (budgetErrorMsg cfg st.total_cost) ∧
      (generate_structured cfg net st prompt schema system_prompt task_type ov).invoked = [] ∧
      (generate_structured cfg net st prompt schema system_prompt task_type ov).netCalls = 0 ∧
      (generate_structured cfg net st prompt schema system_prompt task_type ov).delays = [] ∧
      (generate_structured cfg net st prompt schema system_prompt task_type ov).state = st) := by
  have hb : _check_budget cfg st.total_cost (1/10) = false := by
    unfold _check_budget
    rw [htrack, if_neg (by simp), if_pos hover]
  constructor
  · refine ⟨?_, ?_, ?_, ?_⟩ <;> (unfold generate; rw [hb]; rfl)
  · refine ⟨?_, ?_, ?_, ?_, ?_⟩ <;> (unfold generate_structured; rw [hb]; rfl)

/-- C10: on every cache hit, `generate` returns a response with
`tokens_used = 0`, `cost = 0.0` and `finish_reason = "cached"`, leaves
`total_cost` (and the cache) unchanged, increments `request_count` by
exactly one, and invokes no adapter. -/
theorem c10_cache_hit_frame (cfg : LLMConfig) (adapter : Adapter)
    (st : ClientState) (prompt : String) (system_prompt task_type : Option String)
    (ov : Option ModelConfig) (c : String)
    (hbudget : _check_budget cfg st.total_cost (1/10) = true)
    (hhit : cachedTruthy cfg st.cache
      (cacheKey prompt system_prompt (selectModel cfg task_type ov).model_name) = some c) :
    (generate cfg adapter st prompt system_prompt task_type ov).outcome =
      .success { content := c, model := (selectModel cfg task_type ov).model_name,
                 provider := (selectModel cfg task_type ov).provider,
                 tokens_used := 0, cost := 0, finish_reason := "cached" } ∧
    (generate cfg adapter st prompt system_prompt task_type ov).state.total_cost =
      st.total_cost ∧
    (generate cfg adapter st prompt system_prompt task_type ov).state.request_count =
      st.request_count + 1 ∧
    (generate cfg adapter st prompt system_prompt task_type ov).state.cache = st.cache ∧
    (generate cfg adapter st prompt system_prompt task_type ov).invoked = [] := by
  refine ⟨?_, ?_, ?_, ?_, ?_⟩ <;>
    (simp only [generate, hbudget, Bool.not_true, Bool.false_eq_true, if_false, hhit])

/-- C1 witness: at the two-candidate local policy with the always-failing
adapter, the exhaustion conclusion holds with 2 × 3 adapter invocations. -/
theorem c1_always_failing_adapter_exhausts_witness :
    _check_budget exCfgAB ({} : ClientState).total_cost (1/10) = true ∧
    cachedTruthy exCfgAB ({} : ClientState).cache
      (cacheKey "ping" none (selectModel exCfgAB none none).model_name) = none ∧
    ((∃ msg, (generate exCfgAB failAdapter {} "ping" none none none).outcome =
        .exhausted msg) ∧
      (generate exCfgAB failAdapter {} "ping" none none none).invoked =
        ((modelsToTry exCfgAB (selectModel exCfgAB none none)).filter
          fun m => m.enabled).flatMap
            (fun m => List.replicate exCfgAB.max_retries m.model_name) ∧
      (generate exCfgAB failAdapter {} "ping" none none none).invoked.length =
        ((modelsToTry exCfgAB (selectModel exCfgAB none none)).filter
          fun m => m.enabled).length * exCfgAB.max_retries) :=
  ⟨by decide, by decide,
    c1_always_failing_adapter_exhausts exCfgAB failAdapter {} "ping" none none none
      (by decide) (by decide) (fun _ => ⟨"boom", rfl⟩)⟩

/-- C3 witness: at the zero-ceiling tracking policy with an empty-ledger
state (0 + 0.1 > 0), the budget short-circuit conclusion holds. -/
theorem c3_budget_denial_short_circuits_witness :
    budgetCfg.enable_cost_tracking = true ∧
    (({} : ClientState).total_cost + 1/10 > budgetCfg.max_cost_per_scan) ∧
    (((generate budgetCfg okAdapter {} "p" none none none).outcome =
        .budgetExceeded (budgetErrorMsg budgetCfg ({} : ClientState).total_cost) ∧
      (generate budgetCfg okAdapter {} "p" none none none).invoked = [] ∧
      (generate budgetCfg okAdapter {} "p" none none none).delays = [] ∧
      (generate budgetCfg okAdapter {} "p" none none none).state = {}) ∧
    ((generate_structured budgetCfg okNet {} "p" (.simple []) none none none).outcome =
        .budgetExceeded (budgetErrorMsg budgetCfg ({} : ClientState).total_cost) ∧
      (generate_structured budgetCfg okNet {} "p" (.simple []) none none none).invoked = [] ∧
      (generate_structured budgetCfg okNet {} "p" (.simple []) none none none).netCalls = 0 ∧
      (generate_structured budgetCfg okNet {} "p" (.simple []) none none none).delays = [] ∧
      (generate_structured budgetCfg okNet {} "p" (.simple []) none none none).state = {})) :=
  ⟨by decide, by norm_num [budgetCfg],
    c3_budget_denial_short_circuits budgetCfg okAdapter okNet {} "p" none none none
      (.simple []) (by decide) (by norm_num [budgetCfg])⟩

/-- C10 witness: at a state whose cache holds content for
`(m, none, "ping")`, the cache-hit frame conclusion holds. -/
theorem c10_cache_hit_frame_witness :
    _check_budget cacheCfg hitSt.total_cost (1/10) = true ∧
    cachedTruthy cacheCfg hitSt.cache
      (cacheKey "ping" none (selectModel cacheCfg none none).model_name) =
      some "cached-answer" ∧
    ((generate cacheCfg failAdapter hitSt "ping" none none none).outcome =
      .success { content := "cached-answer",
                 model := (selectModel cacheCfg none none).model_name,
                 provider := (selectModel cacheCfg none none).provider,
                 tokens_used := 0, cost := 0, finish_reason := "cached" } ∧
      (generate cacheCfg failAdapter hitSt "ping" none none none).state.total_cost =
        hitSt.total_cost ∧
      (generate cacheCfg failAdapter hitSt "ping" none none none).state.request_count =
        hitSt.request_count + 1 ∧
      (generate cacheCfg failAdapter hitSt "ping" none none none).state.cache =
        hitSt.cache ∧
      (generate cacheCfg failAdapter hitSt "ping" none none none).invoked = []) :=
  ⟨by decide, by decide,
    c10_cache_hit_frame cacheCfg failAdapter hitSt "ping" none none none "cached-answer"
      (by decide) (by decide)⟩

/-- C4 (amended): a schema declaration that compiles to an error makes
every adapter attempt raise before any network call (zero network calls
in the whole dispatch, state unchanged), but the error IS retried and
propagated through the whole fallback candidate list like a transport
error, surfacing as the aggregated exhaustion error after
`N * maxRetries` provider invocations. -/
theorem c4_schema_error_amended (cfg : LLMConfig) (net : StructuredNet) (st : ClientState)
    (prompt : String) (system_prompt task_type : Option String) (ov : Option ModelConfig)
    (schema : SchemaDecl) (ce : String)
    (hcomp : _dict_schema_to_pydantic schema = .error ce)
    (hbudget : _check_budget cfg st.total_cost (1/10) = true) :
    (generate_structured cfg net st prompt schema system_prompt task_type ov).netCalls = 0 ∧
    (∃ msg, (generate_structured cfg net st prompt schema system_prompt task_type ov).outcome =
      .exhausted msg) ∧
    (generate_structured cfg net st prompt schema system_prompt task_type ov).invoked =
      ((modelsToTry cfg (selectModel cfg task_type ov)).filter fun m => m.enabled).flatMap
        (fun m => List.replicate cfg.max_retries m.model_name) ∧
    (generate_structured cfg net st prompt schema system_prompt task_type ov).state = st := by
  have hl := tryCandidatesS_compileFail cfg net schema prompt ce hcomp
    (modelsToTry cfg (selectModel cfg task_type ov)) st
  simp only [generate_structured, hbudget, Bool.not_true, Bool.false_eq_true, if_false, hl.1]
  exact ⟨hl.2.2.1, ⟨_, rfl⟩, hl.2.2.2, hl.2.1⟩

/-- C4 (amended) witness: at the concrete two-candidate policy and the
non-dict schema, the amended conclusion holds (4 provider invocations,
0 network calls). -/
theorem c4_schema_error_amended_witness :
    _dict_schema_to_pydantic badSchema =
      .error "Schema must be dict or Pydantic BaseModel class, got int" ∧
    _check_budget schCfg ({} : ClientState).total_cost (1/10) = true ∧
    ((generate_structured schCfg okNet {} "p" badSchema none none none).netCalls = 0 ∧
      (∃ msg, (generate_structured schCfg okNet {} "p" badSchema none none none).outcome =
        .exhausted msg) ∧
      (generate_structured schCfg okNet {} "p" badSchema none none none).invoked =
        ((modelsToTry schCfg (selectModel schCfg none none)).filter
          fun m => m.enabled).flatMap
            (fun m => List.replicate schCfg.max_retries m.model_name) ∧
      (generate_structured schCfg okNet {} "p" badSchema none none none).state = {}) :=
  ⟨rfl, by decide,
    c4_schema_error_amended schCfg okNet {} "p" none none none badSchema
      "Schema must be dict or Pydantic BaseModel class, got int" rfl (by decide)⟩

/-- C7 (amended): under the same exhaustion hypotheses as C1, the
backoff delay slept after failed attempt `i` of any candidate equals
`retry_delay * 2^i` — the flat `retry_delay`, irrespective of the
candidate's tier (`get_retry_delay`, which would select the larger
remote base delay, is never consulted by `generate`) — and the
per-candidate delay sequence is non-decreasing whenever `retry_delay` is
non-negative. -/
theorem c7_backoff_delay_amended (cfg : LLMConfig) (adapter : Adapter)
    (st : ClientState) (prompt : String) (system_prompt task_type : Option String)
    (ov : Option ModelConfig)
    (hbudget : _check_budget cfg st.total_cost (1/10) = true)
    (hmiss : cachedTruthy cfg st.cache
      (cacheKey prompt system_prompt (selectModel cfg task_type ov).model_name) = none)
    (hfail : ∀ mc, ∃ e, adapter mc = .error e) :
    (generate cfg adapter st prompt system_prompt task_type ov).delays =
      ((modelsToTry cfg (selectModel cfg task_type ov)).filter fun m => m.enabled).flatMap
        (fun _ => (List.range' 0 (cfg.max_retries - 1)).map
          fun i => cfg.retry_delay * 2 ^ i) ∧
    (0 ≤ cfg.retry_delay →
      List.Chain' (· ≤ ·)
        ((List.range' 0 (cfg.max_retries - 1)).map fun i => cfg.retry_delay * 2 ^ i)) := by
  have hl := tryCandidates_allFail cfg adapter
    (cacheKey prompt system_prompt (selectModel cfg task_type ov).model_name) hfail
    (modelsToTry cfg (selectModel cfg task_type ov)) st
  constructor
  · simp only [generate, hbudget, Bool.not_true, Bool.false_eq_true, if_false, hmiss, hl.1]
    exact hl.2.2.2.2
  · intro hrd
    refine chain_le_range_map _ (fun i => ?_) _ _
    have h2 : (2 : ℚ) ^ i ≤ 2 ^ (i + 1) :=
      pow_le_pow_right₀ one_le_two (Nat.le_succ i)
    exact mul_le_mul_of_nonneg_left h2 hrd

/-- C7 (amended) witness: at the remote-tier single-candidate policy
with two retries, the slept delays are `[retry_delay * 2^0]` and that
sequence is non-decreasing. -/
theorem c7_backoff_delay_amended_witness :
    _check_budget remoteCfg ({} : ClientState).total_cost (1/10) = true ∧
    cachedTruthy remoteCfg ({} : ClientState).cache
      (cacheKey "p" none (selectModel remoteCfg none none).model_name) = none ∧
    ((generate remoteCfg failAdapter {} "p" none none none).delays =
      ((modelsToTry remoteCfg (selectModel remoteCfg none none)).filter
        fun m => m.enabled).flatMap
          (fun _ => (List.range' 0 (remoteCfg.max_retries - 1)).map
            fun i => remoteCfg.retry_delay * 2 ^ i) ∧
      (0 ≤ remoteCfg.retry_delay →
        List.Chain' (· ≤ ·)
          ((List.range' 0 (remoteCfg.max_retries - 1)).map
            fun i => remoteCfg.retry_delay * 2 ^ i))) :=
  ⟨by decide, by decide,
    c7_backoff_delay_amended remoteCfg failAdapter {} "p" none none none
      (by decide) (by decide) (fun _ => ⟨"boom", rfl⟩)⟩

/-- C5 (amended): with caching enabled, after any call that returns
successfully the response content is retrievable from the cache under
`hash(selected model id, system prompt, user prompt)`; and provided that
content is NON-EMPTY (an empty stored content is treated as a miss by
the `if cached_content:` truthiness guard) and the second call passes
the budget check, issuing the same (model, system prompt, user prompt)
again makes zero adapter invocations and returns content identical to
the first response. -/
theorem c5_cache_idempotence_amended (cfg : LLMConfig) (adapter : Adapter)
    (st : ClientState) (prompt : String) (system_prompt task_type : Option String)
    (ov : Option ModelConfig) (r : LLMResponse)
    (hcache : cfg.enable_caching = true)
    (hsucc : (generate cfg adapter st prompt system_prompt task_type ov).outcome =
      .success r)
    (hne : r.content ≠ "")
    (hb2 : _check_budget cfg
      (generate cfg adapter st prompt system_prompt task_type ov).state.total_cost
      (1/10) = true) :
    cachedTruthy cfg (generate cfg adapter st prompt system_prompt task_type ov).state.cache
      (cacheKey prompt system_prompt (selectModel cfg task_type ov).model_name) =
      some r.content ∧
    (generate cfg adapter
      (generate cfg adapter st prompt system_prompt task_type ov).state
      prompt system_prompt task_type ov).invoked = [] ∧
    (generate cfg adapter
      (generate cfg adapter st prompt system_prompt task_type ov).state
      prompt system_prompt task_type ov).outcome =
      .success { content := r.content, model := (selectModel cfg task_type ov).model_name,
                 provider := (selectModel cfg task_type ov).provider, tokens_used := 0,
                 cost := 0, finish_reason := "cached" } := by
  by_cases hb1 : _check_budget cfg st.total_cost (1/10) = true
  case neg =>
    have hb1' : _check_budget cfg st.total_cost (1/10) = false := by
      revert hb1
      cases _check_budget cfg st.total_cost (1/10) <;> simp
    simp only [generate, hb1', Bool.not_false, if_true] at hsucc
    exact (GenOutcome.noConfusion hsucc)
  case pos =>
    cases hct : cachedTruthy cfg st.cache
        (cacheKey prompt system_prompt (selectModel cfg task_type ov).model_name) with
    | some c =>
      have hg : generate cfg adapter st prompt system_prompt task_type ov =
          { outcome := .success
              { content := c, model := (selectModel cfg task_type ov).model_name,
                provider := (selectModel cfg task_type ov).provider, tokens_used := 0,
                cost := 0, finish_reason := "cached" },
            state := { total_cost := st.total_cost,
                       request_count := st.request_count + 1, cache := st.cache },
            invoked := [], delays := [], logs := [] } := by
        simp only [generate, hb1, Bool.not_true, Bool.false_eq_true, if_false, hct]
      rw [hg] at hsucc
      dsimp only at hsucc
      injection hsucc with h''
      subst h''
      rw [hg]
      refine ⟨hct, ?_, ?_⟩ <;>
        simp only [generate, hb1, Bool.not_true, Bool.false_eq_true, if_false, hct]
    | none =>
      cases hres : (tryCandidates cfg adapter
          (cacheKey prompt system_prompt (selectModel cfg task_type ov).model_name)
          (modelsToTry cfg (selectModel cfg task_type ov)) st).result with
      | none =>
        simp only [generate, hb1, Bool.not_true, Bool.false_eq_true, if_false, hct,
          hres] at hsucc
        exact (GenOutcome.noConfusion hsucc)
      | some resp =>
        have hg : generate cfg adapter st prompt system_prompt task_type ov =
            { outcome := .success resp,
              state := (tryCandidates cfg adapter
                (cacheKey prompt system_prompt (selectModel cfg task_type ov).model_name)
                (modelsToTry cfg (selectModel cfg task_type ov)) st).state,
              invoked := (tryCandidates cfg adapter
                (cacheKey prompt system_prompt (selectModel cfg task_type ov).model_name)
                (modelsToTry cfg (selectModel cfg task_type ov)) st).invoked,
              delays := (tryCandidates cfg adapter
                (cacheKey prompt system_prompt (selectModel cfg task_type ov).model_name)
                (modelsToTry cfg (selectModel cfg task_type ov)) st).delays,
              logs := (tryCandidates cfg adapter
                (cacheKey prompt system_prompt (selectModel cfg task_type ov).model_name)
                (modelsToTry cfg (selectModel cfg task_type ov)) st).logs } := by
          simp only [generate, hb1, Bool.not_true, Bool.false_eq_true, if_false, hct, hres]
        rw [hg] at hsucc
        dsimp only at hsucc
        injection hsucc with h''
        subst h''
        have hc := tryCandidates_success_cache cfg adapter
          (cacheKey prompt system_prompt (selectModel cfg task_type ov).model_name)
          (modelsToTry cfg (selectModel cfg task_type ov)) st resp hres
        have hct2 : cachedTruthy cfg
            (generate cfg adapter st prompt system_prompt task_type ov).state.cache
            (cacheKey prompt system_prompt (selectModel cfg task_type ov).model_name) =
            some resp.content := by
          rw [hg]
          dsimp only
          rw [hc]
          simp [cachedTruthy, _get_cached_response, _save_to_cache, hcache,
            String.isEmpty_iff, hne]
        refine ⟨hct2, ?_, ?_⟩
        all_goals
          rw [hg] at hb2 hct2 ⊢
          dsimp only at hb2 hct2 ⊢
          simp only [generate, hb2, Bool.not_true, Bool.false_eq_true, if_false, hct2]

/-- C5 (amended) witness: at the caching policy with the successful
non-empty-content adapter, the first call stores "hello" under the key
and the second call is a zero-invocation cache hit returning it. -/
theorem c5_cache_idempotence_amended_witness :
    cacheCfg.enable_caching = true ∧
    (generate cacheCfg helloAdapter {} "p" none none none).outcome = .success helloResp ∧
    helloResp.content ≠ "" ∧
    (cachedTruthy cacheCfg
        (generate cacheCfg helloAdapter {} "p" none none none).state.cache
        (cacheKey "p" none (selectModel cacheCfg none none).model_name) =
        some helloResp.content ∧
      (generate cacheCfg helloAdapter
        (generate cacheCfg helloAdapter {} "p" none none none).state
        "p" none none none).invoked = [] ∧
      (generate cacheCfg helloAdapter
        (generate cacheCfg helloAdapter {} "p" none none none).state
        "p" none none none).outcome =
        .success { content := helloResp.content,
                   model := (selectModel cacheCfg none none).model_name,
                   provider := (selectModel cacheCfg none none).provider,
                   tokens_used := 0, cost := 0, finish_reason := "cached" }) :=
  ⟨by decide, by decide, by decide,
    c5_cache_idempotence_amended cacheCfg helloAdapter {} "p" none none none helloResp
      (by decide) (by decide) (by decide) (by decide)⟩
